import Mathlib

/-!
Shallow embedding of `pkg/bot/src/cmd/template/operate-env.ts` from the
violet-infrastructure repository: the operate-env reply command with its
`main`, `update` and `constructComment` operations, together with the data
model they manipulate (Entry, CommentValues, BuiltInfo, the CodeBuild build
record shape).

Modelling conventions:
- JS `Date` values are epoch milliseconds (`Int`); `Temporal.Instant` values
  are epoch nanoseconds (`Int`); `toTemporalInstant` converts between them.
- A JS value that may be `null`/`undefined` (or, for `buildStatus`, not a
  string) is an `Option`.
- A thrown error is `Except.error`; the async effects of the source are made
  explicit by passing the responses of the external collaborators
  (ECR image lookup, CodeBuild startBuild / batchGetBuilds) as inputs, so
  every operation is a pure function of its entry and those responses.
-/

namespace OperateEnv

/-- JS `Date`, modelled as epoch milliseconds. -/
abbrev Date := Int

/-- The type `Temporal.Instant`, modelled as epoch nanoseconds. -/
abbrev Instant := Int

/-- The conversion `toTemporalInstant.call(date)` from a `Date` (ms) to an `Instant` (ns). -/
def toTemporalInstant (d : Date) : Instant := d * 1000000

/-- The method `a.until(b)` on `Temporal.Instant`: the signed duration, in nanoseconds. -/
def instantUntil (a b : Instant) : Int := b - a

/-- Modelled from the spec: `renderDuration` lives in
`pkg/bot/src/util/comment-render`, which is not under `src/`. The spec calls
its result "a human-readable elapsed-time summary derived from job start/end
timestamps"; we render the duration as a (never empty) seconds string. -/
def renderDuration (d : Int) : String := toString (d / 1000000000) ++ " sec"

/-- Modelled from the spec: `renderTimestamp` lives in
`pkg/bot/src/util/comment-render`, which is not under `src/`; it renders a
status-changed timestamp for the comment. -/
def renderTimestamp (t : Instant) : String := toString t

/-- Argument record of `renderECRImageDigest`. -/
structure ECRImageArg where
  imageRegion : String
  imageDigest : String
  imageRepoName : String
deriving DecidableEq

/-- Modelled from the spec: `renderECRImageDigest` lives in
`pkg/bot/src/util/comment-render/aws`, which is not under `src/`; it renders
a resolved image digest reference for the hints block. -/
def renderECRImageDigest (a : ECRImageArg) : String :=
  a.imageRepoName ++ "@" ++ a.imageDigest

/-- One character of JS `encodeURIComponent` (builtin): percent-escape the
URI-significant characters that occur in CodeBuild build ids. -/
def encodeURIComponentChar (c : Char) : String :=
  if c = ':' then "%3A" else if c = '/' then "%2F" else String.singleton c

/-- JS builtin `encodeURIComponent`, applied characterwise. -/
def encodeURIComponent (s : String) : String :=
  String.join (s.data.map encodeURIComponentChar)

/-- Modelled from the spec: `BuiltInfo` is declared in
`pkg/shared/lib/operate-env/build-output.ts`, which is not under `src/`; per
the spec it "holds a human-readable elapsed-time summary", and the source
reads exactly one field, `timeRange` (operate-env.ts line 139). -/
structure BuiltInfo where
  timeRange : String
deriving DecidableEq

/-- Modelled from the spec: `generalBuildOutputSchema` is declared in
`pkg/shared/lib/operate-env/build-output.ts`, not under `src/`; the source
reads `generalBuildOutput.sourceZipKey` (operate-env.ts line 166). -/
structure GeneralBuildOutput where
  sourceZipKey : String
deriving DecidableEq

/-- Modelled from the spec: `tfBuildOutputSchema` is declared in
`pkg/shared/lib/operate-env/build-output.ts`, not under `src/`; fields are
the ones read by `constructComment` (operate-env.ts lines 140-173). -/
structure TfBuildOutput where
  apiURL : String
  webURL : String
  envRegion : String
  ecsClusterName : String
  apiTaskLogGroupName : String
deriving DecidableEq

/-- The persisted entry of the operate-env command (`entrySchema`,
operate-env.ts lines 23-34): identity fields plus the optional build-output
fields merged in. `runTaskBuildOutput` is declared in the build-output module
(not under `src/`) and is interpolated directly into a URL
(operate-env.ts line 173), so it is modelled as a string. -/
structure Entry where
  prNumber : Int
  buildId : String
  buildArn : String
  webImageDigest : String
  apiImageDigest : String
  generalBuildOutput : Option GeneralBuildOutput := none
  tfBuildOutput : Option TfBuildOutput := none
  runTaskBuildOutput : Option String := none
deriving DecidableEq

/-- The `CommentValues` interface (operate-env.ts lines 36-41). -/
structure CommentValues where
  buildStatus : String
  statusChangedAt : Instant
  deepLogLink : Option String := none
  builtInfo : Option BuiltInfo := none
deriving DecidableEq

/-- The three-member status variant of a reply command result. -/
inductive Status where
  | undone
  | success
  | failure
deriving DecidableEq

/-- The `{ status, entry, values }` record returned by `main` and `update`. -/
structure CmdResult where
  status : Status
  entry : Entry
  values : CommentValues
deriving DecidableEq

/-- The status mapping of operate-env.ts line 223: SUCCEEDED to success,
FAILED to failure, anything else (the nullish-coalescing fallback) to
undone. -/
def statusOfBuildStatus (s : String) : Status :=
  if s = "SUCCEEDED" then Status.success
  else if s = "FAILED" then Status.failure
  else Status.undone

/-- The `build.logs` shape: the CodeBuild logs location with its optional deep link. -/
structure LogsLocation where
  deepLink : Option String := none
deriving DecidableEq

/-- A CodeBuild build record as consumed by `main` and `update`. Each field
the source checks for presence or type is an `Option`; `buildStatus = none`
models a missing or non-string status. -/
structure Build where
  id : Option String := none
  arn : Option String := none
  buildStatus : Option String := none
  startTime : Option Date := none
  endTime : Option Date := none
  logs : Option LogsLocation := none
deriving DecidableEq

/-- Response of `codeBuild.batchGetBuilds` as used by `update`: the `builds`
list may be absent. -/
structure BatchGetBuildsResponse where
  builds : Option (List Build)
deriving DecidableEq

/-- The typed errors `update` can throw. The first four are the explicit
`TypeError`s of the source (operate-env.ts lines 191-199);
`undefinedMemberAccess` models the unguarded JS `TypeError` raised by reading
a property of `undefined` when the `builds` list is empty
(`builds[0]` / `builds[builds.length - 1]`, lines 192-194). -/
inductive UpdateError where
  | buildsNotFound
  | lastBuildStatusNotString
  | firstStartTimeNotFound
  | lastStartTimeNotFound
  | undefinedMemberAccess
deriving DecidableEq

/-- The command operation `update(entry, ctx)` (operate-env.ts lines 183-227), as a pure function
of the entry and the `batchGetBuilds` response. Field reads happen in source
order: the null check on `builds`, then the property reads on
`builds[builds.length - 1]` (line 194) and `builds[0]` (line 195), which on
an empty list are reads on `undefined` and throw. -/
def update (entry : Entry) (resp : BatchGetBuildsResponse) :
    Except UpdateError CmdResult :=
  match resp.builds with
  | none => Except.error UpdateError.buildsNotFound
  | some builds =>
    match builds.getLast? with
    | none => Except.error UpdateError.undefinedMemberAccess
    | some last =>
      match last.buildStatus with
      | none => Except.error UpdateError.lastBuildStatusNotString
      | some lastBuildStatus =>
        match builds.head? with
        | none => Except.error UpdateError.undefinedMemberAccess
        | some first =>
          match first.startTime with
          | none => Except.error UpdateError.firstStartTimeNotFound
          | some firstStartTime =>
            match last.startTime with
            | none => Except.error UpdateError.lastStartTimeNotFound
            | some lastStartTime =>
              let statusChangeTime : Date := last.endTime.getD lastStartTime
              let builtInfo : Option BuiltInfo :=
                if lastBuildStatus = "SUCCEEDED" then
                  some { timeRange := renderDuration (instantUntil
                    (toTemporalInstant firstStartTime)
                    (toTemporalInstant statusChangeTime)) }
                else none
              Except.ok {
                status := statusOfBuildStatus lastBuildStatus
                entry := entry
                values := {
                  buildStatus := lastBuildStatus
                  statusChangedAt := toTemporalInstant statusChangeTime
                  deepLogLink := last.logs.bind LogsLocation.deepLink
                  builtInfo := builtInfo } }

/-- ECR image detail, as returned by `getImageDetailByTag`; the source reads
only `imageDigest`. -/
structure ImageDetail where
  imageDigest : String
deriving DecidableEq

/-- Response of `codeBuild.startBuild`: the `build` record may be absent. -/
structure StartBuildResponse where
  build : Option Build
deriving DecidableEq

/-- The external responses `main` consumes, in invocation order: the two
`getImageDetailByTag` lookups (API then WEB; `none` = image not found) and
the `startBuild` response. -/
structure MainDeps where
  apiImageDetail : Option ImageDetail
  webImageDetail : Option ImageDetail
  startBuildResponse : StartBuildResponse
deriving DecidableEq

/-- The typed errors `main` can throw (operate-env.ts lines 71-108). -/
inductive MainError where
  | imageForApiNotFound
  | imageForWebNotFound
  | responseNotFound
  | buildStatusNotString
  | buildIdNotString
  | buildArnNotString
  | startTimeNotDate
deriving DecidableEq

/-- The message string of each error thrown by `main`, verbatim from the
source. -/
def MainError.message : MainError → String
  | MainError.imageForApiNotFound => "Image for API not found."
  | MainError.imageForWebNotFound => "Image for WEB not found."
  | MainError.responseNotFound => "Response not found for CodeBuild.startBuild"
  | MainError.buildStatusNotString => "CodeBuild response buildStatus is not string"
  | MainError.buildIdNotString => "CodeBuild response id is not string"
  | MainError.buildArnNotString => "CodeBuild response arn is not string"
  | MainError.startTimeNotDate => "CodeBuild response startTime is not Date"

/-- The command operation `main(ctx, args, generalEntry)` (operate-env.ts lines 58-128), as a pure
function of the PR number and the external responses. The second component
of the result records whether `codeBuild.startBuild` was invoked: the source
reaches that call only after both image lookups succeed, so a missing image
fails the invocation before the external job is started. -/
def main (prNumber : Int) (deps : MainDeps) :
    Except MainError CmdResult × Bool :=
  match deps.apiImageDetail with
  | none => (Except.error MainError.imageForApiNotFound, false)
  | some apiImageDetail =>
    match deps.webImageDetail with
    | none => (Except.error MainError.imageForWebNotFound, false)
    | some webImageDetail =>
      (match deps.startBuildResponse.build with
       | none => Except.error MainError.responseNotFound
       | some build =>
         match build.buildStatus with
         | none => Except.error MainError.buildStatusNotString
         | some buildStatus =>
           match build.id with
           | none => Except.error MainError.buildIdNotString
           | some buildId =>
             match build.arn with
             | none => Except.error MainError.buildArnNotString
             | some buildArn =>
               match build.startTime with
               | none => Except.error MainError.startTimeNotDate
               | some startTime =>
                 Except.ok {
                   status := Status.undone
                   entry := {
                     prNumber := prNumber
                     buildId := buildId
                     buildArn := buildArn
                     webImageDigest := webImageDetail.imageDigest
                     apiImageDigest := apiImageDetail.imageDigest }
                   values := {
                     buildStatus := buildStatus
                     statusChangedAt := toTemporalInstant startTime } },
       true)

/-- The bot environment fields `constructComment` reads from `ctx.env`. -/
structure BotEnv where
  OPERATE_ENV_PROJECT_NAME : String
  WEB_REPO_NAME : String
  API_REPO_NAME : String
deriving DecidableEq

/-- A line of a rendered comment: `none` models the falsy (`null`/`undefined`)
array elements the JS template produces for absent optional data; the
surrounding renderer filters them out. -/
abbrev CommentLine := Option String

/-- The nested `body` of a hint: `{ main: [...] }`. -/
structure CommentBody where
  main : List CommentLine
deriving DecidableEq

/-- One collapsible hint section: `{ title, body }`. -/
structure CommentHint where
  title : String
  body : CommentBody
deriving DecidableEq

/-- The structured comment returned by `constructComment`. -/
structure StructuredComment where
  main : List CommentLine
  hints : List CommentHint
deriving DecidableEq

/-- The hardcoded image region (operate-env.ts line 21). -/
def imageRegion : String := "ap-northeast-1"

/-- The renderer `constructComment(entry, values, ctx)` (operate-env.ts lines 129-182),
line for line. JS `x && template` becomes `Option.map`; the
`cond ? [lines] : []` spreads become list matches. -/
def constructComment (entry : Entry) (values : CommentValues) (env : BotEnv) :
    StructuredComment :=
  let region := "ap-northeast-1"
  let buildUrl := "https://" ++ region
    ++ ".console.aws.amazon.com/codesuite/codebuild/projects/"
    ++ env.OPERATE_ENV_PROJECT_NAME ++ "/build/"
    ++ encodeURIComponent entry.buildId ++ "/?region=" ++ region
  { main :=
      [ some ("- ビルドステータス: " ++ values.buildStatus ++ " ("
          ++ renderTimestamp values.statusChangedAt ++ ")")
      , values.builtInfo.map (fun builtInfo =>
          "- ビルド時間: " ++ builtInfo.timeRange) ]
      ++ (match entry.tfBuildOutput with
          | some tf => [some ("- api: " ++ tf.apiURL), some ("- web: " ++ tf.webURL)]
          | none => [])
    hints :=
      [ { title := "詳細"
          body := { main :=
            [ some ("- ビルドID: [" ++ entry.buildId ++ "](" ++ buildUrl ++ ")") ]
            ++ (match entry.tfBuildOutput with
                | some tf =>
                  [some ("- ECS Cluster Name: [`" ++ tf.ecsClusterName
                    ++ "`](https://" ++ tf.envRegion
                    ++ ".console.aws.amazon.com/ecs/home#/clusters/"
                    ++ tf.ecsClusterName ++ "/services)")]
                | none => [])
            ++ [ some ("- 使用した Web イメージダイジェスト: "
                  ++ renderECRImageDigest {
                    imageRegion := imageRegion
                    imageDigest := entry.webImageDigest
                    imageRepoName := env.WEB_REPO_NAME })
               , some ("- 使用した API イメージダイジェスト: "
                  ++ renderECRImageDigest {
                    imageRegion := imageRegion
                    imageDigest := entry.apiImageDigest
                    imageRepoName := env.API_REPO_NAME })
               , entry.generalBuildOutput.map (fun generalBuildOutput =>
                  "- 使用したインフラ定義バージョン: "
                    ++ generalBuildOutput.sourceZipKey) ]
            ++ (match entry.tfBuildOutput, entry.runTaskBuildOutput with
                | some tf, some runTaskBuildOutput =>
                  [some ("[RunTask の詳細ログ (CloudWatch Logs)](https://"
                    ++ tf.envRegion
                    ++ ".console.aws.amazon.com/cloudwatch/home#logsV2:log-groups/log-group/"
                    ++ tf.apiTaskLogGroupName ++ "/log-events/api"
                    ++ "$252F" ++ "api" ++ "$252F" ++ runTaskBuildOutput ++ ")")]
                | _, _ => [])
            ++ [ values.deepLogLink.map (fun deepLogLink =>
                  "- [ビルドの詳細ログ (CloudWatch Logs)](" ++ deepLogLink ++ ")") ] } } ] }

end OperateEnv

namespace OperateEnv

deriving instance DecidableEq for Except

/-- Whether an `Except` result is a success (`Except.ok`). -/
def isOkResult {ε α : Type} : Except ε α → Bool
  | Except.ok _ => true
  | Except.error _ => false

/-- A sample persisted entry. -/
def entry0 : Entry :=
  { prNumber := 1
    buildId := "operate-env:1234"
    buildArn := "arn:aws:codebuild:ap-northeast-1:0:build/operate-env:1234"
    webImageDigest := "sha256:web"
    apiImageDigest := "sha256:api" }

/-- A succeeded build record with start and end timestamps. -/
def build0 : Build :=
  { buildStatus := some "SUCCEEDED", startTime := some 0, endTime := some 1000 }

/-- The result of `update entry0` on `build0`. -/
def updateResult0 : CmdResult :=
  { status := Status.success
    entry := entry0
    values :=
      { buildStatus := "SUCCEEDED"
        statusChangedAt := 1000000000
        deepLogLink := none
        builtInfo := some { timeRange := "1 sec" } } }

/-- A build record with an unrecognized (non-terminal) status string and a
start time. -/
def buildStopped : Build := { buildStatus := some "STOPPED", startTime := some 0 }

/-- A build record with an unrecognized status string but no start time. -/
def buildInProgressNoStart : Build := { buildStatus := some "IN_PROGRESS" }

/-- A build record whose status is not a string. -/
def buildNoStatus : Build := { startTime := some 0 }

/-- A failed terminal build record with timestamps and a deep log link. -/
def buildFailed : Build :=
  { buildStatus := some "FAILED", startTime := some 0, endTime := some 5000
    logs := some { deepLink := some "https://log" } }

/-- A structurally complete `startBuild` response record. -/
def buildStarted : Build :=
  { id := some "operate-env:1234"
    arn := some "arn:aws:codebuild:ap-northeast-1:0:build/operate-env:1234"
    buildStatus := some "IN_PROGRESS"
    startTime := some 0 }

/-- External responses for a `main` run where both images resolve. -/
def depsOk : MainDeps :=
  { apiImageDetail := some { imageDigest := "sha256:api" }
    webImageDetail := some { imageDigest := "sha256:web" }
    startBuildResponse := { build := some buildStarted } }

/-- External responses for a `main` run where the API image is not found. -/
def depsNoApi : MainDeps :=
  { apiImageDetail := none
    webImageDetail := some { imageDigest := "sha256:web" }
    startBuildResponse := { build := none } }

/-- Reduction of `update` on a present single-record response whose record
has a status string and a start time. -/
theorem update_single_ok (entry : Entry) (b : Build) (s : String) (t : Date)
    (hs : b.buildStatus = some s) (ht : b.startTime = some t) :
    update entry { builds := some [b] } = Except.ok {
      status := statusOfBuildStatus s
      entry := entry
      values := {
        buildStatus := s
        statusChangedAt := toTemporalInstant (b.endTime.getD t)
        deepLogLink := b.logs.bind LogsLocation.deepLink
        builtInfo :=
          if s = "SUCCEEDED" then
            some { timeRange := renderDuration (instantUntil
              (toTemporalInstant t)
              (toTemporalInstant (b.endTime.getD t))) }
          else none } } := by
  unfold update
  simp [List.getLast?, List.head?, hs, ht]

/-- Any successful `update` hands back the entry it was given. -/
theorem update_ok_entry (entry : Entry) (resp : BatchGetBuildsResponse)
    (r : CmdResult) (h : update entry resp = Except.ok r) : r.entry = entry := by
  unfold update at h
  repeat' split at h
  all_goals first
    | (injection h with h2; subst h2; rfl)
    | injection h

/-- The modelled duration rendering never yields the empty string. -/
theorem renderDuration_ne_empty (d : Int) : renderDuration d ≠ "" := by
  unfold renderDuration
  intro h
  have hl := congrArg String.length h
  rw [String.length_append] at hl
  have h4 : (" sec" : String).length = 4 := rfl
  have h0 : ("" : String).length = 0 := rfl
  rw [h4, h0] at hl
  omega

/-- C1 (counterexample): a record whose status string is neither SUCCEEDED
nor FAILED but whose start time is missing makes `update` throw the
`firstStartTimeNotFound` TypeError instead of returning `undone` without
error. -/
theorem update_unrecognized_counterexample :
    update entry0 { builds := some [buildInProgressNoStart] } =
      Except.error UpdateError.firstStartTimeNotFound := by decide

/-- C1 (amended): for every entry and every single-record response whose
record carries a status string that is neither SUCCEEDED nor FAILED and a
present start time, `update` returns ok with status `undone`. -/
theorem update_unrecognized_status_undone (entry : Entry) (b : Build)
    (s : String) (t : Date) (hs : b.buildStatus = some s)
    (h1 : s ≠ "SUCCEEDED") (h2 : s ≠ "FAILED") (ht : b.startTime = some t) :
    ∃ r, update entry { builds := some [b] } = Except.ok r ∧
      r.status = Status.undone := by
  refine ⟨_, update_single_ok entry b s t hs ht, ?_⟩
  simp [statusOfBuildStatus, h1, h2]

/-- C1 (witness): the amended theorem applied to a concrete STOPPED record. -/
theorem update_unrecognized_status_undone_witness :
    (update entry0 { builds := some [buildStopped] }).map CmdResult.status =
      Except.ok Status.undone := by
  obtain ⟨r, hr, hst⟩ := update_unrecognized_status_undone entry0 buildStopped
    "STOPPED" 0 rfl (by decide) (by decide) rfl
  rw [hr]
  show Except.ok r.status = Except.ok Status.undone
  rw [hst]

/-- C2: `update` is idempotent: if a call returns ok, calling `update` again
on the returned entry against the unchanged response yields the identical
result (same status, same entry, same Values). -/
theorem update_idempotent (entry : Entry) (resp : BatchGetBuildsResponse)
    (r : CmdResult) (h : update entry resp = Except.ok r) :
    update r.entry resp = Except.ok r := by
  rw [update_ok_entry entry resp r h]
  exact h

/-- C2 (witness): idempotence at a concrete succeeded record. -/
theorem update_idempotent_witness :
    update updateResult0.entry { builds := some [build0] } =
      Except.ok updateResult0 :=
  update_idempotent entry0 { builds := some [build0] } updateResult0 (by decide)

/-- C3: a malformed record — status not a string, or start time missing —
makes `update` fail with a typed error and never return ok (in particular
never a silent `undone`). -/
theorem update_malformed_record_errors (entry : Entry) (b : Build)
    (hmal : b.buildStatus = none ∨ b.startTime = none) :
    (∃ e, update entry { builds := some [b] } = Except.error e) ∧
    ∀ r, update entry { builds := some [b] } ≠ Except.ok r := by
  have hmain : ∃ e, update entry { builds := some [b] } = Except.error e := by
    rcases hmal with h | h
    · exact ⟨UpdateError.lastBuildStatusNotString, by
        unfold update; simp [List.getLast?, h]⟩
    · match hbs : b.buildStatus with
      | none => exact ⟨UpdateError.lastBuildStatusNotString, by
          unfold update; simp [List.getLast?, hbs]⟩
      | some s => exact ⟨UpdateError.firstStartTimeNotFound, by
          unfold update; simp [List.getLast?, List.head?, hbs, h]⟩
  refine ⟨hmain, ?_⟩
  obtain ⟨e, he⟩ := hmain
  intro r hr
  rw [he] at hr
  exact Except.noConfusion hr

/-- C3 (witness): the theorem applied to a record without a status string. -/
theorem update_malformed_record_errors_witness :
    isOkResult (update entry0 { builds := some [buildNoStatus] }) = false := by
  obtain ⟨⟨e, he⟩, -⟩ := update_malformed_record_errors entry0 buildNoStatus
    (Or.inl rfl)
  rw [he]
  rfl

/-- C4: a SUCCEEDED record with start and end timestamps yields status
`success` and a builtInfo whose duration string is non-empty. -/
theorem update_succeeded_builtinfo (entry : Entry) (b : Build) (t1 t2 : Date)
    (hs : b.buildStatus = some "SUCCEEDED") (ht : b.startTime = some t1)
    (he : b.endTime = some t2) :
    ∃ r bi, update entry { builds := some [b] } = Except.ok r ∧
      r.status = Status.success ∧ r.values.builtInfo = some bi ∧
      bi.timeRange ≠ "" := by
  have h := update_single_ok entry b "SUCCEEDED" t1 hs ht
  rw [he] at h
  simp only [Option.getD_some] at h
  refine ⟨_, { timeRange := renderDuration (instantUntil
      (toTemporalInstant t1) (toTemporalInstant t2)) },
    h, by simp [statusOfBuildStatus], by simp, renderDuration_ne_empty _⟩

/-- C4 (witness): the theorem applied to a concrete succeeded record. -/
theorem update_succeeded_builtinfo_witness :
    (update entry0 { builds := some [build0] }).map CmdResult.status =
      Except.ok Status.success := by
  obtain ⟨r, bi, hr, hst, -, -⟩ := update_succeeded_builtinfo entry0 build0
    0 1000 rfl rfl rfl
  rw [hr]
  show Except.ok r.status = Except.ok Status.success
  rw [hst]

/-- C5 (counterexample): a terminal FAILED record with timestamps and a log
link yields status `failure` but `builtInfo = none` — no duration is
computed for FAILED, refuting the claim that derived duration Values are
computed for every terminal state. -/
theorem update_failed_counterexample :
    update entry0 { builds := some [buildFailed] } = Except.ok
      { status := Status.failure
        entry := entry0
        values :=
          { buildStatus := "FAILED"
            statusChangedAt := 5000000000
            deepLogLink := some "https://log"
            builtInfo := none } } := by decide

/-- C5 (amended): a terminal record yields the corresponding terminal status
and the deep log link from the logs of the record; the duration builtInfo is
computed for SUCCEEDED only and is `none` for FAILED. -/
theorem update_terminal_status (entry : Entry) (b : Build) (s : String)
    (t : Date) (hs : b.buildStatus = some s)
    (hterm : s = "SUCCEEDED" ∨ s = "FAILED") (ht : b.startTime = some t) :
    ∃ r, update entry { builds := some [b] } = Except.ok r ∧
      r.values.deepLogLink = b.logs.bind LogsLocation.deepLink ∧
      (s = "SUCCEEDED" → r.status = Status.success ∧ r.values.builtInfo ≠ none) ∧
      (s = "FAILED" → r.status = Status.failure ∧ r.values.builtInfo = none) := by
  refine ⟨_, update_single_ok entry b s t hs ht, rfl, ?_, ?_⟩
  · intro hSucc; subst hSucc
    exact ⟨by simp [statusOfBuildStatus], by simp⟩
  · intro hFail; subst hFail
    exact ⟨by simp [statusOfBuildStatus], by simp⟩

/-- C5 (witness): the amended theorem applied to the concrete FAILED record. -/
theorem update_terminal_status_witness :
    (update entry0 { builds := some [buildFailed] }).map CmdResult.status =
      Except.ok Status.failure := by
  obtain ⟨r, hr, -, -, hfail⟩ := update_terminal_status entry0 buildFailed
    "FAILED" 0 rfl (Or.inr rfl) rfl
  rw [hr]
  show Except.ok r.status = Except.ok Status.failure
  rw [(hfail rfl).1]

/-- C6: when an image lookup fails, `main` fails with the corresponding
precondition error message, returns no result record, and does so before the
external job is started (second component `false`). -/
theorem main_missing_image_fails (prNumber : Int) (deps : MainDeps)
    (h : deps.apiImageDetail = none ∨ deps.webImageDetail = none) :
    ∃ e, main prNumber deps = (Except.error e, false) ∧
      (MainError.message e = "Image for API not found." ∨
       MainError.message e = "Image for WEB not found.") := by
  rcases h with h | h
  · exact ⟨MainError.imageForApiNotFound, by unfold main; rw [h], Or.inl rfl⟩
  · match hap : deps.apiImageDetail with
    | none => exact ⟨MainError.imageForApiNotFound, by
        unfold main; rw [hap], Or.inl rfl⟩
    | some a => exact ⟨MainError.imageForWebNotFound, by
        unfold main; rw [hap, h], Or.inr rfl⟩

/-- C6 (witness): the theorem applied to responses missing the API image. -/
theorem main_missing_image_fails_witness :
    (main 1 depsNoApi).2 = false ∧ isOkResult (main 1 depsNoApi).1 = false := by
  obtain ⟨e, he, -⟩ := main_missing_image_fails 1 depsNoApi (Or.inl rfl)
  rw [he]
  exact ⟨rfl, rfl⟩

/-- C7: when both images resolve and the startBuild response is structurally
complete, `main` starts the job and returns status `undone` with an entry
holding the two resolved digests and Values carrying the reported
status and start time. -/
theorem main_ok_result (prNumber : Int) (deps : MainDeps)
    (apiD webD : ImageDetail) (b : Build) (s bId bArn : String) (t : Date)
    (hapi : deps.apiImageDetail = some apiD)
    (hweb : deps.webImageDetail = some webD)
    (hb : deps.startBuildResponse.build = some b)
    (hs : b.buildStatus = some s) (hid : b.id = some bId)
    (harn : b.arn = some bArn) (ht : b.startTime = some t) :
    main prNumber deps = (Except.ok {
      status := Status.undone
      entry :=
        { prNumber := prNumber
          buildId := bId
          buildArn := bArn
          webImageDigest := webD.imageDigest
          apiImageDigest := apiD.imageDigest }
      values :=
        { buildStatus := s
          statusChangedAt := toTemporalInstant t } }, true) := by
  obtain ⟨adi, wdi, ⟨bopt⟩⟩ := deps
  subst hapi
  subst hweb
  subst hb
  obtain ⟨bid0, barn0, bst0, bstart0, bend0, blogs0⟩ := b
  subst hs
  subst hid
  subst harn
  subst ht
  rfl

/-- C7 (witness): the theorem applied to a concrete complete run. -/
theorem main_ok_result_witness :
    main 1 depsOk = (Except.ok {
      status := Status.undone
      entry :=
        { prNumber := 1
          buildId := "operate-env:1234"
          buildArn := "arn:aws:codebuild:ap-northeast-1:0:build/operate-env:1234"
          webImageDigest := "sha256:web"
          apiImageDigest := "sha256:api" }
      values :=
        { buildStatus := "IN_PROGRESS"
          statusChangedAt := toTemporalInstant 0 } }, true) :=
  main_ok_result 1 depsOk { imageDigest := "sha256:api" }
    { imageDigest := "sha256:web" } buildStarted "IN_PROGRESS"
    "operate-env:1234" "arn:aws:codebuild:ap-northeast-1:0:build/operate-env:1234"
    0 rfl rfl rfl rfl rfl rfl rfl

/-- C8: `constructComment` is a total function of any Entry/Values/env
combination (in particular one with every optional field absent): it always
returns a structured comment whose first main line is the status line and
which carries exactly one hints section. -/
theorem constructComment_total_structured (entry : Entry)
    (values : CommentValues) (env : BotEnv) :
    (constructComment entry values env).main.head? =
      some (some ("- ビルドステータス: " ++ values.buildStatus ++ " ("
        ++ renderTimestamp values.statusChangedAt ++ ")")) ∧
    (constructComment entry values env).hints.length = 1 := by
  exact ⟨rfl, rfl⟩

/-- C9: reconciliation never changes the entry: whenever `update` returns a
result, its entry — identity fields and pinned digests included — is the
entry it was given. -/
theorem update_preserves_entry (entry : Entry) (resp : BatchGetBuildsResponse)
    (r : CmdResult) (h : update entry resp = Except.ok r) : r.entry = entry :=
  update_ok_entry entry resp r h

/-- C9 (witness): the theorem applied to a concrete succeeded record. -/
theorem update_preserves_entry_witness : updateResult0.entry = entry0 :=
  update_preserves_entry entry0 { builds := some [build0] } updateResult0
    (by decide)

/-- C10: on a present but empty builds list, `update` neither returns a
result nor one of its four declared typed errors: it hits the unguarded
read of a field of `undefined` (`builds[0]` / `builds[builds.length - 1]`). -/
theorem update_empty_builds_unguarded (entry : Entry) :
    update entry { builds := some [] } =
      Except.error UpdateError.undefinedMemberAccess ∧
    UpdateError.undefinedMemberAccess ≠ UpdateError.buildsNotFound ∧
    UpdateError.undefinedMemberAccess ≠ UpdateError.lastBuildStatusNotString ∧
    UpdateError.undefinedMemberAccess ≠ UpdateError.firstStartTimeNotFound ∧
    UpdateError.undefinedMemberAccess ≠ UpdateError.lastStartTimeNotFound := by
  exact ⟨rfl, by decide, by decide, by decide, by decide⟩

end OperateEnv
